import Mathlib

/-!
Verification development for the Vulkan device-and-presentation negotiation
pipeline of this repository (class FirstVulkanExample in the main source file).

The pure decision logic of the pipeline is shallowly embedded here:

* queue-family resolution (findQueueFamilies),
* device suitability (isDeviceSuitable, checkDeviceExtensionSupport),
* swapchain parameter negotiation (chooseSwapSurfaceFormat,
  chooseSwapPresentMode, chooseSwapExtent, the image-count computation and
  the sharing-mode decision of createSwapChain),
* the queue-handle retrieval arguments of createLogicalDevice.

The backend (Vulkan/GLFW) answers to the enumeration and query calls are
modelled as explicit data: a physical device is a record of what the backend
reports for it against the one fixed surface of the program.  Machine
integers (uint32_t) are modelled as Nat, with an explicit mod 2^32 at the
one arithmetic operation that can overflow.
-/

namespace VulkanBootstrap

/-- VK_QUEUE_GRAPHICS_BIT: the capability flag bit for graphics submission. -/
def VK_QUEUE_GRAPHICS_BIT : Nat := 1

/-- Sentinel value 0xFFFFFFFF (UINT32_MAX) used by the backend for an
"unbounded" current extent. -/
def UINT32_MAX : Nat := 2 ^ 32 - 1

/-- 2^32, the modulus of uint32_t arithmetic. -/
def U32_MOD : Nat := 2 ^ 32

/-- One entry of the queue-family properties the backend reports for a device
(vkGetPhysicalDeviceQueueFamilyProperties), paired with the backend's answer
to vkGetPhysicalDeviceSurfaceSupportKHR for that family against the program's
surface. -/
structure QueueFamilyProps where
  queueFlags : Nat
  presentSupport : Bool
  deriving DecidableEq

/-- The test `queueFamily.queueFlags & VK_QUEUE_GRAPHICS_BIT` performed by
findQueueFamilies. -/
def QueueFamilyProps.hasGraphics (f : QueueFamilyProps) : Bool :=
  f.queueFlags &&& VK_QUEUE_GRAPHICS_BIT != 0

/-- struct QueueFamilyIndexes: two optional uint32 indices. -/
structure QueueFamilyIndexes where
  graphicsFamily : Option Nat
  presentFamily : Option Nat
  deriving DecidableEq

/-- QueueFamilyIndexes::isComplete. -/
def QueueFamilyIndexes.isComplete (q : QueueFamilyIndexes) : Bool :=
  q.graphicsFamily.isSome && q.presentFamily.isSome

/-- The loop body of findQueueFamilies: for each family, in order, overwrite
graphicsFamily when the family has the graphics bit, overwrite presentFamily
when the backend confirms present support, and break as soon as the record is
complete. -/
def findQueueFamiliesAux :
    List QueueFamilyProps → Nat → QueueFamilyIndexes → QueueFamilyIndexes
  | [], _, indexes => indexes
  | queueFamily :: rest, i, indexes =>
    let indexes1 :=
      if queueFamily.hasGraphics then
        { indexes with graphicsFamily := some i }
      else indexes
    let indexes2 :=
      if queueFamily.presentSupport then
        { indexes1 with presentFamily := some i }
      else indexes1
    if indexes2.isComplete then indexes2
    else findQueueFamiliesAux rest (i + 1) indexes2

/-- FirstVulkanExample::findQueueFamilies, as a function of the queue-family
list the backend reports for the device (together with the per-family present
support answers). -/
def findQueueFamilies (fams : List QueueFamilyProps) : QueueFamilyIndexes :=
  findQueueFamiliesAux fams 0 { graphicsFamily := none, presentFamily := none }

/-- Left-biased choice on optional indices (later assignments shadow earlier
ones once the later scan result is placed on the left). -/
def orO (a b : Option Nat) : Option Nat :=
  match a with
  | some x => some x
  | none => b

/-- Index (offset by `i`) of the last element of the list satisfying `p`,
if any. -/
def lastIdxFrom (p : QueueFamilyProps → Bool) :
    List QueueFamilyProps → Nat → Option Nat
  | [], _ => none
  | f :: rest, i => orO (lastIdxFrom p rest (i + 1)) (if p f then some i else none)

/-- Index of the first element of the list satisfying `p`, if any. -/
def firstIdx (q : QueueFamilyProps → Bool) : List QueueFamilyProps → Option Nat
  | [] => none
  | f :: rest => if q f then some 0 else (firstIdx q rest).map (fun n => n + 1)

/-- Number of queue families the resolver's loop examines before breaking,
given which of the two indices are already assigned on entry. -/
def scanCount : List QueueFamilyProps → Bool → Bool → Nat
  | [], _, _ => 0
  | f :: rest, g, p =>
    let g1 := g || f.hasGraphics
    let p1 := p || f.presentSupport
    if g1 && p1 then 1 else scanCount rest g1 p1 + 1

/-- Specification-level description of the resolver: over the prefix of
families actually scanned (the scan stops at the first family at which both
indices have become assigned), each index is the LAST matching family of that
prefix, because later matches overwrite earlier ones. -/
def specQueueFamilies (fams : List QueueFamilyProps) : QueueFamilyIndexes :=
  let scanned := fams.take (scanCount fams false false)
  { graphicsFamily := lastIdxFrom QueueFamilyProps.hasGraphics scanned 0,
    presentFamily := lastIdxFrom QueueFamilyProps.presentSupport scanned 0 }

lemma orO_none_left (b : Option Nat) : orO none b = b := rfl

lemma orO_none_right (a : Option Nat) : orO a none = a := by
  cases a <;> rfl

lemma orO_some_left (x : Nat) (b : Option Nat) : orO (some x) b = some x := rfl

lemma orO_assoc (a b c : Option Nat) : orO (orO a b) c = orO a (orO b c) := by
  cases a <;> rfl

lemma orO_if (c : Bool) (i : Nat) (g : Option Nat) :
    orO (if c then some i else none) g = if c then some i else g := by
  cases c <;> rfl

lemma findQueueFamiliesAux_spec (l : List QueueFamilyProps) :
    ∀ (i : Nat) (g p : Option Nat),
      findQueueFamiliesAux l i { graphicsFamily := g, presentFamily := p } =
        { graphicsFamily :=
            orO (lastIdxFrom QueueFamilyProps.hasGraphics
                  (l.take (scanCount l g.isSome p.isSome)) i) g,
          presentFamily :=
            orO (lastIdxFrom QueueFamilyProps.presentSupport
                  (l.take (scanCount l g.isSome p.isSome)) i) p } := by
  induction l with
  | nil => intro i g p; rfl
  | cons f rest ih =>
    intro i g p
    cases hFG : f.hasGraphics <;> cases hFP : f.presentSupport <;>
      cases g <;> cases p <;>
        simp [findQueueFamiliesAux, scanCount, lastIdxFrom,
          QueueFamilyIndexes.isComplete, hFG, hFP, ih, orO_none_left,
          orO_none_right, orO_some_left, orO_assoc]

lemma findQueueFamiliesAux_first_present (l : List QueueFamilyProps) :
    ∀ (i : Nat) (g : Option Nat) (j : Nat) (f : QueueFamilyProps),
      firstIdx QueueFamilyProps.presentSupport l = some j →
      l[j]? = some f → f.hasGraphics = true →
      findQueueFamiliesAux l i { graphicsFamily := g, presentFamily := none } =
        { graphicsFamily := some (i + j), presentFamily := some (i + j) } := by
  induction l with
  | nil => intro i g j f h; simp [firstIdx] at h
  | cons hd rest ih =>
    intro i g j f hFirst hGet hGr
    by_cases hP : hd.presentSupport = true
    · simp [firstIdx, hP] at hFirst
      subst hFirst
      simp at hGet
      subst hGet
      simp [findQueueFamiliesAux, hP, hGr, QueueFamilyIndexes.isComplete]
    · simp [firstIdx, hP] at hFirst
      obtain ⟨j1, hj1, rfl⟩ := hFirst
      simp at hGet
      have hrec := ih (i + 1) (if hd.hasGraphics then some i else g) j1 f hj1 hGet hGr
      cases hHG : hd.hasGraphics <;>
        simp [findQueueFamiliesAux, hP, hHG, QueueFamilyIndexes.isComplete] <;>
        rw [show i + (j1 + 1) = i + 1 + j1 by omega] <;>
        simpa [hHG] using hrec

/-- Pixel formats relevant to chooseSwapSurfaceFormat (VK_FORMAT_B8G8R8_SRGB
is the one the code tests for) plus representatives of the others. -/
inductive VkFormat where
  | b8g8r8Srgb
  | b8g8r8a8Srgb
  | r8g8b8a8Unorm
  | other
  deriving DecidableEq

/-- Color spaces relevant to chooseSwapSurfaceFormat
(VK_COLOR_SPACE_SRGB_NONLINEAR_KHR plus a representative of the others). -/
inductive ColorSpace where
  | srgbNonlinear
  | other
  deriving DecidableEq

/-- VkSurfaceFormatKHR: a (format, colorSpace) pair. -/
structure SurfaceFormat where
  format : VkFormat
  colorSpace : ColorSpace
  deriving DecidableEq

/-- VkPresentModeKHR values. -/
inductive PresentMode where
  | immediate
  | fifo
  | fifoRelaxed
  | mailbox
  deriving DecidableEq

/-- VkExtent2D. -/
structure Extent2D where
  width : Nat
  height : Nat
  deriving DecidableEq

/-- The fields of VkSurfaceCapabilitiesKHR the pipeline reads. -/
structure SurfaceCapabilities where
  minImageCount : Nat
  maxImageCount : Nat
  currentExtent : Extent2D
  minImageExtent : Extent2D
  maxImageExtent : Extent2D
  deriving DecidableEq

/-- A physical device as the backend reports it against the program's one
surface: queue-family properties (with per-family surface-support answers),
device extension names, and the probed surface capabilities, formats and
presentation modes. -/
structure PhysDevice where
  queueFamilies : List QueueFamilyProps
  availableExtensions : List String
  capabilities : SurfaceCapabilities
  formats : List SurfaceFormat
  presentModes : List PresentMode
  deriving DecidableEq

/-- The global deviceExtensions vector ({VK_KHR_SWAPCHAIN_EXTENSION_NAME}). -/
def deviceExtensions : List String := ["VK_KHR_swapchain"]

/-- FirstVulkanExample::checkDeviceExtensionSupport: build the set of required
extension names, erase every extension the device advertises, and succeed iff
the remainder is empty (required minus available is empty). -/
def checkDeviceExtensionSupport (d : PhysDevice) : Bool :=
  (deviceExtensions.filter (fun r => !(d.availableExtensions.contains r))).isEmpty

/-- struct SwapChainSupportDetails. -/
structure SwapChainSupportDetails where
  capabilities : SurfaceCapabilities
  formats : List SurfaceFormat
  presentModes : List PresentMode
  deriving DecidableEq

/-- FirstVulkanExample::querySwapChainSupport: pure probe of the backend's
per-device-and-surface data. -/
def querySwapChainSupport (d : PhysDevice) : SwapChainSupportDetails :=
  { capabilities := d.capabilities, formats := d.formats,
    presentModes := d.presentModes }

/-- FirstVulkanExample::isDeviceSuitable: queue completeness AND extension
support AND (checked only under extension support) nonempty probed format and
presentation-mode lists. -/
def isDeviceSuitable (d : PhysDevice) : Bool :=
  let indices := findQueueFamilies d.queueFamilies
  let extensionsSupported := checkDeviceExtensionSupport d
  let swapChainAdequate :=
    if extensionsSupported then
      let swapChainSupport := querySwapChainSupport d
      !swapChainSupport.formats.isEmpty && !swapChainSupport.presentModes.isEmpty
    else false
  indices.isComplete && extensionsSupported && swapChainAdequate

/-- The predicate of chooseSwapSurfaceFormat's loop:
format == VK_FORMAT_B8G8R8_SRGB && colorSpace == VK_COLOR_SPACE_SRGB_NONLINEAR_KHR. -/
def preferredSurfaceFormat (f : SurfaceFormat) : Bool :=
  decide (f.format = VkFormat.b8g8r8Srgb ∧ f.colorSpace = ColorSpace.srgbNonlinear)

/-- The search loop of chooseSwapSurfaceFormat: first matching entry, if any. -/
def chooseSwapSurfaceFormatLoop : List SurfaceFormat → Option SurfaceFormat
  | [] => none
  | f :: rest =>
    if preferredSurfaceFormat f then some f else chooseSwapSurfaceFormatLoop rest

/-- FirstVulkanExample::chooseSwapSurfaceFormat: the loop's match if any,
otherwise availableFormats[0]; `none` models the out-of-bounds index applied
to an empty list. -/
def chooseSwapSurfaceFormat (availableFormats : List SurfaceFormat) :
    Option SurfaceFormat :=
  match chooseSwapSurfaceFormatLoop availableFormats with
  | some f => some f
  | none => availableFormats.head?

/-- FirstVulkanExample::chooseSwapPresentMode: VK_PRESENT_MODE_MAILBOX_KHR if
it occurs in the supported list, otherwise VK_PRESENT_MODE_FIFO_KHR. -/
def chooseSwapPresentMode : List PresentMode → PresentMode
  | [] => PresentMode.fifo
  | m :: rest =>
    if m = PresentMode.mailbox then m else chooseSwapPresentMode rest

/-- std::clamp(v, lo, hi) (precondition lo ≤ hi; this is the evaluation the
standard prescribes: v < lo ? lo : hi < v ? hi : v). -/
def stdClamp (v lo hi : Nat) : Nat :=
  if v < lo then lo else if hi < v then hi else v

/-- FirstVulkanExample::chooseSwapExtent: the surface's currentExtent verbatim
when currentExtent.width differs from UINT32_MAX, otherwise the window
framebuffer size clamped component-wise into [minImageExtent, maxImageExtent].
The framebuffer size (already cast to uint32) is passed in explicitly. -/
def chooseSwapExtent (caps : SurfaceCapabilities) (fbWidth fbHeight : Nat) :
    Extent2D :=
  if caps.currentExtent.width ≠ UINT32_MAX then
    caps.currentExtent
  else
    { width := stdClamp fbWidth caps.minImageExtent.width caps.maxImageExtent.width,
      height := stdClamp fbHeight caps.minImageExtent.height caps.maxImageExtent.height }

/-- The image-count negotiation at the top of createSwapChain:
uint32_t imageCount = capabilities.minImageCount + 1 (uint32 arithmetic, hence
the mod 2^32), then capped to maxImageCount when maxImageCount > 0 and the
computed count exceeds it. -/
def swapChainImageCount (caps : SurfaceCapabilities) : Nat :=
  let imageCount := (caps.minImageCount + 1) % U32_MOD
  if caps.maxImageCount > 0 ∧ imageCount > caps.maxImageCount then
    caps.maxImageCount
  else imageCount

/-- VkSharingMode. -/
inductive SharingMode where
  | exclusive
  | concurrent
  deriving DecidableEq

/-- The fields of VkSwapchainCreateInfoKHR that createSwapChain computes
(fixed fields such as imageArrayLayers = 1 are omitted). -/
structure SwapchainCreateInfo where
  minImageCount : Nat
  imageFormat : VkFormat
  imageColorSpace : ColorSpace
  imageExtent : Extent2D
  imageSharingMode : SharingMode
  queueFamilyIndices : List Nat
  presentMode : PresentMode
  deriving DecidableEq

/-- FirstVulkanExample::createSwapChain, up to the vkCreateSwapchainKHR call:
assembles the creation parameters from the probed support details, the window
framebuffer size, and the device's queue families.  `none` models the two
failure exits (out-of-bounds format index on an empty format list, value() on
an unset optional index). -/
def createSwapChainInfo (support : SwapChainSupportDetails)
    (fbWidth fbHeight : Nat) (fams : List QueueFamilyProps) :
    Option SwapchainCreateInfo :=
  match chooseSwapSurfaceFormat support.formats with
  | none => none
  | some surfaceFormat =>
    let presentMode := chooseSwapPresentMode support.presentModes
    let extent := chooseSwapExtent support.capabilities fbWidth fbHeight
    let imageCount := swapChainImageCount support.capabilities
    let indices := findQueueFamilies fams
    match indices.graphicsFamily, indices.presentFamily with
    | some g, some p =>
      some { minImageCount := imageCount
             imageFormat := surfaceFormat.format
             imageColorSpace := surfaceFormat.colorSpace
             imageExtent := extent
             imageSharingMode :=
               if g ≠ p then SharingMode.concurrent else SharingMode.exclusive
             queueFamilyIndices := if g ≠ p then [g, p] else []
             presentMode := presentMode }
    | _, _ => none

/-- The (queueFamilyIndex, queueIndex) argument pair of one vkGetDeviceQueue
call. -/
structure DeviceQueueRequest where
  familyIndexArg : Nat
  queueIndexArg : Nat
  deriving DecidableEq

/-- The two vkGetDeviceQueue calls at the end of createLogicalDevice, recorded
as their (second, third) argument pairs exactly as the code passes them: the
literal 0 as the queueFamilyIndex argument and the resolved family index as
the queueIndex argument. -/
def logicalDeviceQueueRetrievals (graphicsFamily presentFamily : Nat) :
    DeviceQueueRequest × DeviceQueueRequest :=
  ({ familyIndexArg := 0, queueIndexArg := graphicsFamily },
   { familyIndexArg := 0, queueIndexArg := presentFamily })

lemma checkDeviceExtensionSupport_iff (d : PhysDevice) :
    checkDeviceExtensionSupport d = true ↔
      ∀ r ∈ deviceExtensions, r ∈ d.availableExtensions := by
  unfold checkDeviceExtensionSupport
  rw [List.isEmpty_iff, List.filter_eq_nil_iff]
  constructor
  · intro h r hr
    have := h r hr
    simpa using this
  · intro h r hr
    simpa using h r hr

lemma isDeviceSuitable_iff (d : PhysDevice) :
    isDeviceSuitable d = true ↔
      ((findQueueFamilies d.queueFamilies).isComplete = true ∧
       checkDeviceExtensionSupport d = true ∧
       d.formats ≠ [] ∧ d.presentModes ≠ []) := by
  unfold isDeviceSuitable querySwapChainSupport
  by_cases hExt : checkDeviceExtensionSupport d = true
  · simp [hExt, List.isEmpty_iff, and_assoc]
  · have hExt2 : checkDeviceExtensionSupport d = false := by
      cases h : checkDeviceExtensionSupport d
      · rfl
      · exact absurd h hExt
    simp [hExt2]

lemma stdClamp_eq (v lo hi : Nat) (h : lo ≤ hi) :
    stdClamp v lo hi = max lo (min v hi) := by
  unfold stdClamp
  split_ifs <;> omega

lemma chooseSwapSurfaceFormatLoop_eq_find (l : List SurfaceFormat) :
    chooseSwapSurfaceFormatLoop l = l.find? preferredSurfaceFormat := by
  induction l with
  | nil => rfl
  | cons f rest ih =>
    by_cases hf : preferredSurfaceFormat f = true <;>
      simp [chooseSwapSurfaceFormatLoop, List.find?, hf, ih]

/-- Claim C1 (counterexample): with families [graphics-only, graphics+present]
the resolver does NOT return the first graphics-capable family: the overwrite
on rescan moves graphicsFamily from 0 to 1 before the scan stops, so the
returned graphics index (1) differs from the index of the first family whose
flags include graphics submission (0). -/
theorem findQueueFamilies_not_first_match :
    (findQueueFamilies [⟨1, false⟩, ⟨1, true⟩]).graphicsFamily ≠
      firstIdx QueueFamilyProps.hasGraphics [⟨1, false⟩, ⟨1, true⟩] ∧
    firstIdx QueueFamilyProps.hasGraphics [⟨1, false⟩, ⟨1, true⟩] = some 0 ∧
    (findQueueFamilies [⟨1, false⟩, ⟨1, true⟩]).graphicsFamily = some 1 ∧
    (findQueueFamilies [⟨1, false⟩, ⟨1, true⟩]).presentFamily = some 1 := by
  decide

/-- Claim C1 (amended): the resolver scans the reported queue families in
order and stops at the first family at which both indices have been assigned;
over that scanned prefix, `graphics` is the index of the LAST family whose
capability flags include graphics submission and `present` is the index of
the LAST family the backend confirms can present (each new match overwrites
the previous assignment; only the early break makes first-match behaviour
appear in the common case). -/
theorem findQueueFamilies_last_scanned_spec (fams : List QueueFamilyProps) :
    findQueueFamilies fams = specQueueFamilies fams := by
  have h := findQueueFamiliesAux_spec fams 0 none none
  simpa [findQueueFamilies, specQueueFamilies, orO_none_right] using h

/-- Claim C2 (code evaluated at the failing input): createLogicalDevice passes
the literal 0 as the queueFamilyIndex argument of vkGetDeviceQueue and the
resolved family index as the queueIndex argument — for resolved graphics and
present family 1 the issued request is (family 0, slot 1), not the claimed
(family 1, slot 0). -/
theorem getDeviceQueue_swapped_arguments :
    logicalDeviceQueueRetrievals 1 1 =
      ({ familyIndexArg := 0, queueIndexArg := 1 },
       { familyIndexArg := 0, queueIndexArg := 1 }) ∧
    ({ familyIndexArg := 0, queueIndexArg := 1 } : DeviceQueueRequest) ≠
      { familyIndexArg := 1, queueIndexArg := 0 } := by
  decide

/-- Claim C3 (counterexample): families
[graphics-only, present-only, graphics+present] contain a family (index 2)
supporting both roles, yet the resolver returns the split
graphics = 0, present = 1, because the scan stops as soon as both indices are
assigned and never reaches the combined family. -/
theorem resolver_combined_family_counterexample :
    (([⟨1, false⟩, ⟨0, true⟩, ⟨1, true⟩] : List QueueFamilyProps).any
        (fun f => f.hasGraphics && f.presentSupport)) = true ∧
    (findQueueFamilies [⟨1, false⟩, ⟨0, true⟩, ⟨1, true⟩]).graphicsFamily = some 0 ∧
    (findQueueFamilies [⟨1, false⟩, ⟨0, true⟩, ⟨1, true⟩]).presentFamily = some 1 ∧
    (findQueueFamilies [⟨1, false⟩, ⟨0, true⟩, ⟨1, true⟩]).graphicsFamily ≠
      (findQueueFamilies [⟨1, false⟩, ⟨0, true⟩, ⟨1, true⟩]).presentFamily := by
  decide

/-- Claim C3 (amended): if the FIRST family the backend confirms can present
to the surface also supports graphics submission, then the resolver assigns
both indices to that one family (no two-family split). -/
theorem resolver_first_present_combined (fams : List QueueFamilyProps)
    (j : Nat) (f : QueueFamilyProps)
    (hFirst : firstIdx QueueFamilyProps.presentSupport fams = some j)
    (hGet : fams[j]? = some f) (hGr : f.hasGraphics = true) :
    findQueueFamilies fams =
      { graphicsFamily := some j, presentFamily := some j } := by
  have h := findQueueFamiliesAux_first_present fams 0 none j f hFirst hGet hGr
  simpa [findQueueFamilies] using h

/-- Witness for the amended claim C3 at the one-family device
[graphics+present]. -/
theorem resolver_first_present_combined_witness :
    findQueueFamilies [⟨1, true⟩] =
      { graphicsFamily := some 0, presentFamily := some 0 } :=
  resolver_first_present_combined [⟨1, true⟩] 0 ⟨1, true⟩ (by decide) (by decide)
    (by decide)

/-- Claim C4: a device is suitable iff its resolved queue family indices are
complete, every required extension name appears in its reported extension
list, and its probed surface-format and presentation-mode lists are both
nonempty; in particular a device whose advertised extensions lack
VK_KHR_swapchain is rejected regardless of queue completeness. -/
theorem isDeviceSuitable_spec :
    (∀ d : PhysDevice, isDeviceSuitable d = true ↔
      ((findQueueFamilies d.queueFamilies).isComplete = true ∧
       (∀ r ∈ deviceExtensions, r ∈ d.availableExtensions) ∧
       d.formats ≠ [] ∧ d.presentModes ≠ [])) ∧
    (∀ d : PhysDevice,
      "VK_KHR_swapchain" ∉ d.availableExtensions → isDeviceSuitable d = false) := by
  constructor
  · intro d
    rw [isDeviceSuitable_iff, checkDeviceExtensionSupport_iff]
  · intro d hmem
    cases hs : isDeviceSuitable d
    · rfl
    · exfalso
      have h := (isDeviceSuitable_iff d).mp hs
      have h2 := (checkDeviceExtensionSupport_iff d).mp h.2.1
      exact hmem (h2 "VK_KHR_swapchain" (by simp [deviceExtensions]))

/-- Witness for claim C4: a device with a complete queue family set but an
empty extension list is rejected. -/
theorem isDeviceSuitable_spec_witness :
    isDeviceSuitable ⟨[⟨1, true⟩], [], ⟨1, 0, ⟨0, 0⟩, ⟨0, 0⟩, ⟨0, 0⟩⟩,
      [⟨VkFormat.other, ColorSpace.other⟩], [PresentMode.fifo]⟩ = false :=
  isDeviceSuitable_spec.2 _ (by simp)

/-- Claim C5 (counterexample): with minImageCount = UINT32_MAX (a valid uint32
value) and maxImageCount = 0 the uint32 addition minImageCount + 1 wraps to 0,
so the negotiated image count is 0, not minImageCount + 1. -/
theorem imageCount_wraparound_counterexample :
    swapChainImageCount ⟨UINT32_MAX, 0, ⟨0, 0⟩, ⟨0, 0⟩, ⟨0, 0⟩⟩ = 0 ∧
    (⟨UINT32_MAX, 0, ⟨0, 0⟩, ⟨0, 0⟩, ⟨0, 0⟩⟩ : SurfaceCapabilities).maxImageCount
      = 0 ∧
    UINT32_MAX + 1 ≠ 0 := by
  decide

/-- Claim C5 (amended): provided minImageCount + 1 does not wrap around the
uint32 range, the negotiated swapchain image count equals minImageCount + 1,
reduced to maxImageCount when maxImageCount is nonzero and smaller than
minImageCount + 1. -/
theorem imageCount_spec (caps : SurfaceCapabilities)
    (h : caps.minImageCount + 1 < U32_MOD) :
    swapChainImageCount caps =
      if caps.maxImageCount ≠ 0 ∧ caps.maxImageCount < caps.minImageCount + 1
      then caps.maxImageCount
      else caps.minImageCount + 1 := by
  have hlt : (caps.minImageCount + 1) % U32_MOD = caps.minImageCount + 1 :=
    Nat.mod_eq_of_lt h
  simp only [swapChainImageCount, hlt]
  split_ifs <;> omega

/-- Witness for the amended claim C5: minImageCount = 2 with unbounded
maxImageCount yields exactly 3; minImageCount = 2 with maxImageCount = 2 is
clamped to 2. -/
theorem imageCount_spec_witness :
    swapChainImageCount ⟨2, 0, ⟨0, 0⟩, ⟨0, 0⟩, ⟨0, 0⟩⟩ = 3 ∧
    swapChainImageCount ⟨2, 2, ⟨0, 0⟩, ⟨0, 0⟩, ⟨0, 0⟩⟩ = 2 := by
  constructor
  · rw [imageCount_spec ⟨2, 0, ⟨0, 0⟩, ⟨0, 0⟩, ⟨0, 0⟩⟩ (by decide)]; decide
  · rw [imageCount_spec ⟨2, 2, ⟨0, 0⟩, ⟨0, 0⟩, ⟨0, 0⟩⟩ (by decide)]; decide

/-- Claim C6 (counterexample): for currentExtent = {UINT32_MAX, 600} — which
differs from the unbounded sentinel {UINT32_MAX, UINT32_MAX} — the claim
demands the current extent verbatim, but the code tests only the width
component and therefore takes the clamping branch, returning the clamped
framebuffer size {500, 500} instead. -/
theorem chooseSwapExtent_sentinel_counterexample :
    (⟨0, 0, ⟨UINT32_MAX, 600⟩, ⟨1, 1⟩, ⟨4096, 4096⟩⟩ :
        SurfaceCapabilities).currentExtent ≠ ⟨UINT32_MAX, UINT32_MAX⟩ ∧
    chooseSwapExtent ⟨0, 0, ⟨UINT32_MAX, 600⟩, ⟨1, 1⟩, ⟨4096, 4096⟩⟩ 500 500 =
      ⟨500, 500⟩ ∧
    chooseSwapExtent ⟨0, 0, ⟨UINT32_MAX, 600⟩, ⟨1, 1⟩, ⟨4096, 4096⟩⟩ 500 500 ≠
      (⟨0, 0, ⟨UINT32_MAX, 600⟩, ⟨1, 1⟩, ⟨4096, 4096⟩⟩ :
        SurfaceCapabilities).currentExtent := by
  decide

/-- Claim C6 (amended): extent selection returns currentExtent verbatim when
currentExtent.WIDTH is not the unbounded sentinel value (the sentinel test
reads only the width component); otherwise (and assuming the surface's
per-component extent bounds are ordered, as std::clamp requires) it returns
the framebuffer size clamped component-wise into
[minImageExtent, maxImageExtent]. -/
theorem chooseSwapExtent_spec (caps : SurfaceCapabilities)
    (fbWidth fbHeight : Nat) :
    (caps.currentExtent.width ≠ UINT32_MAX →
      chooseSwapExtent caps fbWidth fbHeight = caps.currentExtent) ∧
    (caps.currentExtent.width = UINT32_MAX →
      caps.minImageExtent.width ≤ caps.maxImageExtent.width →
      caps.minImageExtent.height ≤ caps.maxImageExtent.height →
      chooseSwapExtent caps fbWidth fbHeight =
        { width := max caps.minImageExtent.width
            (min fbWidth caps.maxImageExtent.width),
          height := max caps.minImageExtent.height
            (min fbHeight caps.maxImageExtent.height) }) := by
  constructor
  · intro h
    simp [chooseSwapExtent, h]
  · intro h hw hh
    simp [chooseSwapExtent, h, stdClamp_eq _ _ _ hw, stdClamp_eq _ _ _ hh]

/-- Witness for the amended claim C6: with the sentinel current extent,
minImageExtent {1,1}, maxImageExtent {4096,4096} and framebuffer {8000,600},
the negotiated extent is {4096,600}. -/
theorem chooseSwapExtent_spec_witness :
    chooseSwapExtent ⟨0, 0, ⟨UINT32_MAX, UINT32_MAX⟩, ⟨1, 1⟩, ⟨4096, 4096⟩⟩
      8000 600 = ⟨4096, 600⟩ := by
  rw [(chooseSwapExtent_spec ⟨0, 0, ⟨UINT32_MAX, UINT32_MAX⟩, ⟨1, 1⟩,
    ⟨4096, 4096⟩⟩ 8000 600).2 rfl (by decide) (by decide)]
  decide

/-- Claim C7: in the swapchain configuration assembled by createSwapChain,
differing resolved graphics and present indices yield concurrent sharing over
exactly those two families, and equal indices yield exclusive sharing with an
empty family list. -/
theorem sharing_policy_spec (support : SwapChainSupportDetails)
    (fbWidth fbHeight : Nat) (fams : List QueueFamilyProps) (g p : Nat)
    (info : SwapchainCreateInfo)
    (hg : (findQueueFamilies fams).graphicsFamily = some g)
    (hp : (findQueueFamilies fams).presentFamily = some p)
    (hinfo : createSwapChainInfo support fbWidth fbHeight fams = some info) :
    (g ≠ p → info.imageSharingMode = SharingMode.concurrent ∧
      info.queueFamilyIndices = [g, p]) ∧
    (g = p → info.imageSharingMode = SharingMode.exclusive ∧
      info.queueFamilyIndices = []) := by
  unfold createSwapChainInfo at hinfo
  cases hf : chooseSwapSurfaceFormat support.formats with
  | none => rw [hf] at hinfo; cases hinfo
  | some sf =>
    rw [hf] at hinfo
    simp only [hg, hp] at hinfo
    by_cases hgp : g = p
    · subst hgp
      simp only [ne_eq, not_true_eq_false, if_neg, Option.some.injEq,
        reduceIte] at hinfo
      subst hinfo
      simp
    · simp only [ne_eq, hgp, not_false_eq_true, if_pos, Option.some.injEq,
        reduceIte] at hinfo
      subst hinfo
      simp [hgp]

/-- Witness for claim C7: a device whose resolver output is the split
graphics = 0, present = 1 gets concurrent sharing over [0, 1]. -/
theorem sharing_policy_spec_witness :
    (⟨2, VkFormat.other, ColorSpace.other, ⟨0, 0⟩, SharingMode.concurrent,
        [0, 1], PresentMode.fifo⟩ : SwapchainCreateInfo).imageSharingMode =
      SharingMode.concurrent ∧
    (⟨2, VkFormat.other, ColorSpace.other, ⟨0, 0⟩, SharingMode.concurrent,
        [0, 1], PresentMode.fifo⟩ : SwapchainCreateInfo).queueFamilyIndices =
      [0, 1] :=
  (sharing_policy_spec
      ⟨⟨1, 0, ⟨0, 0⟩, ⟨0, 0⟩, ⟨0, 0⟩⟩, [⟨VkFormat.other, ColorSpace.other⟩],
        [PresentMode.fifo]⟩
      800 600 [⟨1, false⟩, ⟨0, true⟩] 0 1
      ⟨2, VkFormat.other, ColorSpace.other, ⟨0, 0⟩, SharingMode.concurrent,
        [0, 1], PresentMode.fifo⟩
      (by decide) (by decide) (by decide)).1 (by decide)

/-- Claim C8: presentation-mode selection returns mailbox when mailbox occurs
anywhere in the supported list and FIFO otherwise. -/
theorem chooseSwapPresentMode_spec (modes : List PresentMode) :
    chooseSwapPresentMode modes =
      if PresentMode.mailbox ∈ modes then PresentMode.mailbox
      else PresentMode.fifo := by
  induction modes with
  | nil => rfl
  | cons m rest ih =>
    by_cases hm : m = PresentMode.mailbox
    · simp [chooseSwapPresentMode, hm]
    · have hm2 : PresentMode.mailbox ≠ m := fun h => hm h.symm
      simp [chooseSwapPresentMode, hm, ih, List.mem_cons, hm2]

/-- Claim C10: on a nonempty format list, surface-format selection is total
and returns an element of the input list — the first entry satisfying the
preferred-format test when one exists, the head of the list otherwise; the
out-of-bounds fallback (`none`) is unreachable because suitability screening
admits only devices whose probed format list is nonempty. -/
theorem chooseSwapSurfaceFormat_safe :
    (∀ l : List SurfaceFormat, l ≠ [] →
      ∃ f, chooseSwapSurfaceFormat l = some f ∧ f ∈ l ∧
        (∀ g, l.find? preferredSurfaceFormat = some g → f = g) ∧
        (l.find? preferredSurfaceFormat = none → l.head? = some f)) ∧
    (∀ d : PhysDevice, isDeviceSuitable d = true → d.formats ≠ []) := by
  constructor
  · intro l hl
    unfold chooseSwapSurfaceFormat
    rw [chooseSwapSurfaceFormatLoop_eq_find]
    cases hfind : l.find? preferredSurfaceFormat with
    | some f =>
      refine ⟨f, rfl, List.mem_of_find?_eq_some hfind, ?_, ?_⟩
      · intro g hgf
        exact Option.some_inj.mp hgf
      · intro hnone
        simp at hnone
    | none =>
      cases l with
      | nil => exact absurd rfl hl
      | cons a t =>
        refine ⟨a, rfl, List.mem_cons_self a t, ?_, fun _ => rfl⟩
        intro g hgf
        exact Option.noConfusion hgf
  · intro d hd
    exact ((isDeviceSuitable_iff d).mp hd).2.2.1

/-- Witness for claim C10: on the singleton list with a non-preferred format,
selection returns that element. -/
theorem chooseSwapSurfaceFormat_safe_witness :
    ∃ f, chooseSwapSurfaceFormat [⟨VkFormat.other, ColorSpace.other⟩] = some f ∧
      f ∈ [(⟨VkFormat.other, ColorSpace.other⟩ : SurfaceFormat)] ∧
      (∀ g, [(⟨VkFormat.other, ColorSpace.other⟩ : SurfaceFormat)].find?
          preferredSurfaceFormat = some g → f = g) ∧
      ([(⟨VkFormat.other, ColorSpace.other⟩ : SurfaceFormat)].find?
          preferredSurfaceFormat = none →
        [(⟨VkFormat.other, ColorSpace.other⟩ : SurfaceFormat)].head? = some f) :=
  chooseSwapSurfaceFormat_safe.1 [⟨VkFormat.other, ColorSpace.other⟩] (by simp)

/-- Claim C9 (counterexample): for minImageCount = 5, maxImageCount = 2 the
negotiated image count is 2, which does not lie in the claimed interval
[minImageCount + 1, maxImageCount] — that interval is empty. -/
theorem imageCount_interval_counterexample :
    swapChainImageCount ⟨5, 2, ⟨0, 0⟩, ⟨0, 0⟩, ⟨0, 0⟩⟩ = 2 ∧
    (⟨5, 2, ⟨0, 0⟩, ⟨0, 0⟩, ⟨0, 0⟩⟩ : SurfaceCapabilities).maxImageCount > 0 ∧
    ¬(5 + 1 ≤ swapChainImageCount ⟨5, 2, ⟨0, 0⟩, ⟨0, 0⟩, ⟨0, 0⟩⟩) := by
  decide

/-- Claim C9 (amended): when maxImageCount is positive, at least
minImageCount + 1, and minImageCount + 1 does not wrap the uint32 range, the
negotiated image count lies in [minImageCount + 1, maxImageCount]. -/
theorem imageCount_interval_spec (caps : SurfaceCapabilities)
    (_h0 : 0 < caps.maxImageCount)
    (h1 : caps.minImageCount + 1 ≤ caps.maxImageCount)
    (hw : caps.minImageCount + 1 < U32_MOD) :
    caps.minImageCount + 1 ≤ swapChainImageCount caps ∧
    swapChainImageCount caps ≤ caps.maxImageCount := by
  have hlt : (caps.minImageCount + 1) % U32_MOD = caps.minImageCount + 1 :=
    Nat.mod_eq_of_lt hw
  simp only [swapChainImageCount, hlt]
  split_ifs <;> omega

/-- Witness for the amended claim C9: minImageCount = 2, maxImageCount = 3
gives a count within [3, 3]. -/
theorem imageCount_interval_spec_witness :
    2 + 1 ≤ swapChainImageCount ⟨2, 3, ⟨0, 0⟩, ⟨0, 0⟩, ⟨0, 0⟩⟩ ∧
    swapChainImageCount ⟨2, 3, ⟨0, 0⟩, ⟨0, 0⟩, ⟨0, 0⟩⟩ ≤ 3 :=
  imageCount_interval_spec ⟨2, 3, ⟨0, 0⟩, ⟨0, 0⟩, ⟨0, 0⟩⟩ (by decide) (by decide)
    (by decide)
